import Mathlib

/-!
Shallow embedding of the YugaByte Redis service command-dispatch layer
(`RedisServiceImpl` in redis_service.cc) and of the Redis client operation
response slots (`YBRedisReadOp` / `YBRedisWriteOp` in yb_op.cc), together
with theorems checking the natural-language specification against it.

Conventions of the embedding:
- C++ `std::string` values used as registry keys and command names are
  modelled as `List Char`.
- `yb::Status` is modelled as an ok flag plus a message.
- Pointers that may be null (`redis_response_`) are modelled as `Option`;
  a fresh heap allocation is represented by an explicit identity supplied
  as a parameter.
- Side effects (responding to the caller, submitting to the backend,
  logging warnings, taking the mutex, running the build/open sequence)
  are modelled as explicit event traces / counters returned by the
  functions, so that "exactly one response" style properties are
  statements about traces.
-/

namespace YbRedis

/-- Model of `std::string` (used where case conversion matters). -/
abbrev Str := List Char

/-- Model of `yb::Status`: an ok flag and the message carried by the
status (its `message()` slice; `ToString` is modelled by the message). -/
structure Status where
  ok : Bool
  message : String
deriving DecidableEq, Repr

/-- `Status::OK()`. -/
def Status.OK : Status := ⟨true, ""⟩

/-- ASCII `tolower` on a single character, as used by `ToLowerCase`. -/
def toLowerChar (c : Char) : Char :=
  if 'A' ≤ c ∧ c ≤ 'Z' then Char.ofNat (c.toNat + 32) else c

/-- `yb::ToLowerCase` applied to a whole string (per-character ASCII
lower-casing, as done in `FetchHandler` before the map lookup). -/
def ToLowerCase (s : Str) : Str := s.map toLowerChar

/-- The thirteen handler member functions bound in the command table
(redis_service.cc lines 367-485). -/
inductive RedisHandler where
  | GetCommand | HGetCommand | StrLenCommand | ExistsCommand | GetRangeCommand
  | SetCommand | HSetCommand | GetSetCommand | AppendCommand | DelCommand
  | SetRangeCommand | IncrCommand | EchoCommand
deriving DecidableEq, Repr

/-- `RedisServiceImpl::RedisCommandInfo`: command name, arity contract
(positive: exactly N arguments; negative: at least |N|), bound handler. -/
structure RedisCommandInfo where
  name : Str
  arity : Int
  function_ptr : RedisHandler
deriving DecidableEq, Repr

/-- The registry key under which `PopulateHandlers` registers each
handler's own metrics and command info (the `SETUP_METRICS_FOR_METHOD`
literals, in table order). -/
def registryName : RedisHandler → Str
  | .GetCommand => "get".toList
  | .HGetCommand => "hget".toList
  | .StrLenCommand => "strlen".toList
  | .ExistsCommand => "exists".toList
  | .GetRangeCommand => "getrange".toList
  | .SetCommand => "set".toList
  | .HSetCommand => "hset".toList
  | .GetSetCommand => "getset".toList
  | .AppendCommand => "append".toList
  | .DelCommand => "del".toList
  | .SetRangeCommand => "setrange".toList
  | .IncrCommand => "incr".toList
  | .EchoCommand => "echo".toList

/-- The order of the thirteen commands in `kRedisCommandTable`, pinned by
the index assertions of `PopulateHandlers`. -/
def kRedisCommandOrder : List RedisHandler :=
  [.GetCommand, .HGetCommand, .StrLenCommand, .ExistsCommand, .GetRangeCommand,
   .SetCommand, .HSetCommand, .GetSetCommand, .AppendCommand, .DelCommand,
   .SetRangeCommand, .IncrCommand, .EchoCommand]

/-- `RedisServiceImpl::kRedisCommandTable`. Its entry names, order and
handler bindings are pinned by the assertions in `PopulateHandlers` and by
the handler bodies; the arity column lives in the service header, which is
not among the provided sources, so the table is parameterized over the
arity assignment. -/
def kRedisCommandTable (arity : RedisHandler → Int) : List RedisCommandInfo :=
  kRedisCommandOrder.map (fun h => ⟨registryName h, arity h, h⟩)

/-- `command_name_to_info_map_` as built by `PopulateHandlers`: each table
entry keyed by its (already lower-case) name. -/
def command_name_to_info_map (arity : RedisHandler → Int) :
    List (Str × RedisCommandInfo) :=
  (kRedisCommandTable arity).map (fun i => (i.name, i))

/-- `std::map::find` over the association list model. -/
def mapFind (k : Str) : List (Str × RedisCommandInfo) → Option RedisCommandInfo
  | [] => none
  | p :: rest => if k = p.1 then some p.2 else mapFind k rest

/-- `RedisServiceImpl::FetchHandler`: lower-cases the first argument and
looks it up in the registry; `none` models the nullptr result for an
unsupported command. (`CHECK_GE` makes an empty argument vector fatal;
the `[]` case is unreachable for well-formed calls.) -/
def FetchHandler (arity : RedisHandler → Int) : List Str → Option RedisCommandInfo
  | [] => none
  | name :: _ => mapFind (ToLowerCase name) (command_name_to_info_map arity)

/-- The observable outcome of `ValidateAndHandle`'s command-shape stage:
either `RespondWithFailure` with the given error string, or invocation of
the bound handler. -/
inductive HandleOutcome where
  | RespondWithFailure (error : String)
  | InvokeHandler (h : RedisHandler)
deriving DecidableEq, Repr

/-- The state of the client lifecycle guard: the `yb_client_initialized_`
atomic flag. -/
structure ClientState where
  yb_client_initialized : Bool
deriving DecidableEq, Repr

/-- Result of `SetUpYBClient`: returned status, flag state afterwards, how
many build/open sequences were performed, how many times `yb_mutex_` was
acquired. -/
structure SetUpResult where
  status : Status
  state : ClientState
  buildOpenCount : Nat
  lockCount : Nat
deriving DecidableEq, Repr

/-- `RedisServiceImpl::SetUpYBClient`: acquire the mutex, re-check the
flag; if still uninitialized, run the client build then the table open
(each may fail, in which case the error is returned and the flag stays
unset); on success set the flag. The outcomes of the two fallible external
steps are supplied as `buildResult` / `openResult`. -/
def SetUpYBClient (buildResult openResult : Status) (st : ClientState) : SetUpResult :=
  if st.yb_client_initialized = false then
    if buildResult.ok = false then ⟨buildResult, st, 1, 1⟩
    else if openResult.ok = false then ⟨openResult, st, 1, 1⟩
    else ⟨Status.OK, ⟨true⟩, 1, 1⟩
  else ⟨Status.OK, st, 0, 1⟩

/-- The command-shape stage of `ValidateAndHandle` (lines 240-253):
unsupported command, then the two arity checks, else handler invocation. -/
def handleCommand (cmd_info : Option RedisCommandInfo) (cmd_args : List Str) :
    HandleOutcome :=
  match cmd_info with
  | none => .RespondWithFailure "Unsupported call."
  | some info =>
    if info.arity < 0 ∧ (cmd_args.length : Int) < -1 * info.arity then
      .RespondWithFailure "Too few arguments."
    else if info.arity > 0 ∧ (cmd_args.length : Int) ≠ info.arity then
      .RespondWithFailure "Wrong number of arguments."
    else
      .InvokeHandler info.function_ptr

/-- Result of a full `ValidateAndHandle` dispatch: the outcome plus the
client-guard state and effect counters after the call. -/
structure DispatchResult where
  outcome : HandleOutcome
  state : ClientState
  buildOpenCount : Nat
  lockCount : Nat
deriving DecidableEq, Repr

/-- `RedisServiceImpl::ValidateAndHandle`: if the initialized flag is
unset (read without the lock), run `SetUpYBClient` and on failure respond
with the initialization error and stop; otherwise fall through to the
command-shape stage. -/
def ValidateAndHandle (buildResult openResult : Status) (st : ClientState)
    (cmd_info : Option RedisCommandInfo) (cmd_args : List Str) : DispatchResult :=
  if st.yb_client_initialized = false then
    let r := SetUpYBClient buildResult openResult st
    if r.status.ok = false then
      ⟨.RespondWithFailure ("Could not open .redis table. " ++ r.status.message),
        r.state, r.buildOpenCount, r.lockCount⟩
    else
      ⟨handleCommand cmd_info cmd_args, r.state, r.buildOpenCount, r.lockCount⟩
  else
    ⟨handleCommand cmd_info cmd_args, st, 0, 0⟩

/-- The effective initialization status observed by one dispatch: OK on
the fast path (flag already set), otherwise the status returned by
`SetUpYBClient`. -/
def initStatus (buildResult openResult : Status) (st : ClientState) : Status :=
  if st.yb_client_initialized = false then
    (SetUpYBClient buildResult openResult st).status
  else Status.OK

/-- The arity contract of `ValidateAndHandle` is satisfied: neither the
too-few check (negative arity) nor the exact check (positive arity) fires. -/
def aritySatisfied (info : RedisCommandInfo) (nargs : Nat) : Prop :=
  ¬(info.arity < 0 ∧ (nargs : Int) < -1 * info.arity) ∧
  ¬(info.arity > 0 ∧ (nargs : Int) ≠ info.arity)

instance (info : RedisCommandInfo) (nargs : Nat) :
    Decidable (aritySatisfied info nargs) := by
  unfold aritySatisfied; infer_instance

/-! ### Operation response slots (yb_op.cc) -/

/-- State of a `YBRedisReadOp`: the `redis_response_` smart pointer,
`none` for null, `some id` for a pointer to the `RedisResponsePB` object
with heap identity `id`. -/
structure YBRedisReadOpState where
  redis_response : Option Nat
deriving DecidableEq, Repr

/-- State of a `YBRedisWriteOp`: its `redis_response_` pointer, modelled
like the read op's. -/
structure YBRedisWriteOpState where
  redis_response : Option Nat
deriving DecidableEq, Repr

/-- Result of running code that contains an `assert`: either the
assertion fired, or the code produced a value. -/
inductive AssertResult (α : Type) where
  | assertFailed
  | ok (value : α)
deriving DecidableEq, Repr

/-- `YBRedisReadOp::mutable_response`: if the slot is null, allocate a
fresh response object (its heap identity supplied as `fresh`), then return
the slot's pointer. Returns the pointer together with the op state after
the call. -/
def YBRedisReadOp.mutable_response (st : YBRedisReadOpState) (fresh : Nat) :
    Option Nat × YBRedisReadOpState :=
  let st2 : YBRedisReadOpState :=
    if st.redis_response = none then ⟨some fresh⟩ else st
  (st2.redis_response, st2)

/-- `YBRedisWriteOp::mutable_response`: same shape as the read op's. -/
def YBRedisWriteOp.mutable_response (st : YBRedisWriteOpState) (fresh : Nat) :
    Option Nat × YBRedisWriteOpState :=
  let st2 : YBRedisWriteOpState :=
    if st.redis_response = none then ⟨some fresh⟩ else st
  (st2.redis_response, st2)

/-- `YBRedisReadOp::response`: `assert(redis_response_ != nullptr)`, then
dereference the slot. -/
def YBRedisReadOp.response (st : YBRedisReadOpState) : AssertResult Nat :=
  match st.redis_response with
  | none => .assertFailed
  | some r => .ok r

/-- Modelled from the spec: `YBRedisWriteOp::response()` is called by
`WriteCommandCb::Run` but its body is not among the provided sources (only
the read op's accessor is); per the spec the response slot is "populated
only on success" and the accessor is modelled identically to
`YBRedisReadOp::response`. -/
def YBRedisWriteOp.response (st : YBRedisWriteOpState) : AssertResult Nat :=
  match st.redis_response with
  | none => .assertFailed
  | some r => .ok r

/-! ### Completion callbacks (redis_service.cc) -/

/-- A response sent to the originating caller: `RpcContext::RespondSuccess`
carrying the copied response payload, or `RpcContext::RespondFailure`
carrying a status. -/
inductive ResponseEvent where
  | RespondSuccess (payload : Nat)
  | RespondFailure (status : Status)
deriving DecidableEq, Repr

/-- `ReadCommandCb::Run`: on an OK backend status, copy
`read_op_->response()` into a fresh response and respond success; else
respond failure with the status. The returned list is the trace of
responses sent during the (single) invocation. -/
def ReadCommandCb.Run (read_op : YBRedisReadOpState) (status : Status) :
    AssertResult (List ResponseEvent) :=
  if status.ok then
    match YBRedisReadOp.response read_op with
    | .assertFailed => .assertFailed
    | .ok r => .ok [.RespondSuccess r]
  else .ok [.RespondFailure status]

/-- What `WriteCommandCb::Run` does in one invocation: the statuses of the
pending errors logged as warnings, and the trace of responses sent. -/
structure WriteRunOutput where
  loggedWarnings : List Status
  responses : List ResponseEvent
deriving DecidableEq, Repr

/-- `WriteCommandCb::Run`: on an OK backend status, copy
`write_op_->response()` and respond success; otherwise query the session's
pending errors (skipped when `session_` is null, modelled by
`sessionPendingErrors = none`), log each one's status as a warning, and
respond failure with the top-level status. -/
def WriteCommandCb.Run (write_op : YBRedisWriteOpState)
    (sessionPendingErrors : Option (List Status)) (status : Status) :
    AssertResult WriteRunOutput :=
  if status.ok then
    match YBRedisWriteOp.response write_op with
    | .assertFailed => .assertFailed
    | .ok r => .ok ⟨[], [.RespondSuccess r]⟩
  else
    let warnings :=
      match sessionPendingErrors with
      | none => []
      | some errs => errs
    .ok ⟨warnings, [.RespondFailure status]⟩

/-! ### Read and write pipelines (redis_service.cc) -/

/-- The metrics a completion object retains at construction:
`metrics_[command_name]` and the internal read/write round-trip metric. -/
structure CbMetrics where
  metricKey : Str
  internalMetricKey : Str
deriving DecidableEq, Repr

/-- Observable actions of one pipeline invocation: respond failure with a
message (via `RespondWithFailure`), submit an async read with a completion
object, apply a write op to the session, flush the session asynchronously
with a completion object, or `EchoCommand`'s direct success response. -/
inductive PipelineEvent where
  | RespondFailureMsg (msg : String)
  | ReadAsync (cb : CbMetrics)
  | Apply
  | FlushAsync (cb : CbMetrics)
  | EchoRespondSuccess
deriving DecidableEq, Repr

/-- `RedisServiceImpl::ReadCommand`: parse, on failure respond with the
parser's message and stop; otherwise submit the read asynchronously with a
completion object retaining `metrics_[command_name]` and
`metrics_["get_internal"]`. `parseResult` is the status returned by the
injected per-command parser. -/
def ReadCommand (command_name : Str) (parseResult : Status) : List PipelineEvent :=
  if parseResult.ok = false then [.RespondFailureMsg parseResult.message]
  else [.ReadAsync ⟨command_name, "get_internal".toList⟩]

/-- `RedisServiceImpl::WriteCommand`: parse, on failure respond with the
parser's message and stop; otherwise apply the op to the session and flush
asynchronously with a completion object retaining `metrics_[command_name]`
and `metrics_["set_internal"]`. -/
def WriteCommand (command_name : Str) (parseResult : Status) : List PipelineEvent :=
  if parseResult.ok = false then [.RespondFailureMsg parseResult.message]
  else [.Apply, .FlushAsync ⟨command_name, "set_internal".toList⟩]

/-- The handler bodies (redis_service.cc lines 296-485): each forwards to
`ReadCommand` / `WriteCommand` with the literal command-name string it
passes in the source, `EchoCommand` responds directly. Note line 384:
`GetRangeCommand` passes `"exists"`. -/
def invokeHandler (h : RedisHandler) (parseResult : Status) : List PipelineEvent :=
  match h with
  | .GetCommand => ReadCommand "get".toList parseResult
  | .HGetCommand => ReadCommand "hget".toList parseResult
  | .StrLenCommand => ReadCommand "strlen".toList parseResult
  | .ExistsCommand => ReadCommand "exists".toList parseResult
  | .GetRangeCommand => ReadCommand "exists".toList parseResult
  | .SetCommand => WriteCommand "set".toList parseResult
  | .HSetCommand => WriteCommand "hset".toList parseResult
  | .GetSetCommand => WriteCommand "getset".toList parseResult
  | .AppendCommand => WriteCommand "append".toList parseResult
  | .DelCommand => WriteCommand "del".toList parseResult
  | .SetRangeCommand => WriteCommand "setrange".toList parseResult
  | .IncrCommand => WriteCommand "incr".toList parseResult
  | .EchoCommand => [.EchoRespondSuccess]

/-- The per-command metric key retained by the completion object when a
handler's successful parse leads to an async read submission (`none` for
handlers that do not submit a read). -/
def attachedReadMetricKey (h : RedisHandler) : Option Str :=
  match invokeHandler h Status.OK with
  | [.ReadAsync cb] => some cb.metricKey
  | _ => none

/-! ### Helper lemmas -/

/-- Character-wise equality up to ASCII letter casing. -/
def strCaseEq : Str → Str → Bool
  | [], [] => true
  | c :: cs, d :: ds => (toLowerChar c == toLowerChar d) && strCaseEq cs ds
  | _, _ => false

theorem strCaseEq_map_toLower (a : Str) : ∀ (b : Str), strCaseEq a b = true →
    a.map toLowerChar = b.map toLowerChar := by
  induction a with
  | nil =>
    intro b h
    cases b with
    | nil => rfl
    | cons d ds => simp [strCaseEq] at h
  | cons c cs ih =>
    intro b h
    cases b with
    | nil => simp [strCaseEq] at h
    | cons d ds =>
      simp only [strCaseEq, Bool.and_eq_true, beq_iff_eq] at h
      simp [List.map, h.1, ih ds h.2]

theorem initStatus_flag_true (b o : Status) : initStatus b o ⟨true⟩ = Status.OK := rfl

theorem initStatus_flag_false (b o : Status) :
    initStatus b o ⟨false⟩ = (SetUpYBClient b o ⟨false⟩).status := rfl

theorem validateAndHandle_flag_true (b o : Status) (ci : Option RedisCommandInfo)
    (args : List Str) :
    ValidateAndHandle b o ⟨true⟩ ci args = ⟨handleCommand ci args, ⟨true⟩, 0, 0⟩ := rfl

theorem validateAndHandle_flag_false_ok (b o : Status) (ci : Option RedisCommandInfo)
    (args : List Str) (h : (SetUpYBClient b o ⟨false⟩).status.ok = true) :
    ValidateAndHandle b o ⟨false⟩ ci args =
      ⟨handleCommand ci args, (SetUpYBClient b o ⟨false⟩).state,
        (SetUpYBClient b o ⟨false⟩).buildOpenCount,
        (SetUpYBClient b o ⟨false⟩).lockCount⟩ := by
  unfold ValidateAndHandle
  simp [h]

theorem validateAndHandle_flag_false_fail (b o : Status) (ci : Option RedisCommandInfo)
    (args : List Str) (h : (SetUpYBClient b o ⟨false⟩).status.ok = false) :
    ValidateAndHandle b o ⟨false⟩ ci args =
      ⟨.RespondWithFailure
          ("Could not open .redis table. " ++ (SetUpYBClient b o ⟨false⟩).status.message),
        (SetUpYBClient b o ⟨false⟩).state,
        (SetUpYBClient b o ⟨false⟩).buildOpenCount,
        (SetUpYBClient b o ⟨false⟩).lockCount⟩ := by
  unfold ValidateAndHandle
  simp [h]

theorem handleCommand_some_satisfied (info : RedisCommandInfo) (args : List Str)
    (hsat : aritySatisfied info args.length) :
    handleCommand (some info) args = .InvokeHandler info.function_ptr := by
  simp only [handleCommand]
  rw [if_neg hsat.1, if_neg hsat.2]

theorem handleCommand_invoke_inv (ci : Option RedisCommandInfo) (args : List Str)
    (hh : RedisHandler) (h : handleCommand ci args = .InvokeHandler hh) :
    ∃ info, ci = some info ∧ info.function_ptr = hh ∧
      aritySatisfied info args.length := by
  cases ci with
  | none => exact absurd h (by simp [handleCommand])
  | some info =>
    by_cases h1 : info.arity < 0 ∧ (args.length : Int) < -1 * info.arity
    · simp only [handleCommand] at h
      rw [if_pos h1] at h
      cases h
    · by_cases h2 : info.arity > 0 ∧ (args.length : Int) ≠ info.arity
      · simp only [handleCommand] at h
        rw [if_neg h1, if_pos h2] at h
        cases h
      · simp only [handleCommand] at h
        rw [if_neg h1, if_neg h2] at h
        cases h
        exact ⟨info, rfl, rfl, h1, h2⟩

/-! ### Claim theorems -/

/-- C1: for every submitted backend operation, one invocation of the
completion callback (`ReadCommandCb::Run` or `WriteCommandCb::Run`) sends
exactly one response to the originating caller: respond-success when the
backend status is OK, respond-failure otherwise, never both and never
neither. (The response slot is populated by the backend on success, which
is the hypothesis on the op states; the trace each `Run` produces is
exactly one singleton response list of the right kind.) -/
theorem cb_run_exactly_one_response (rop : YBRedisReadOpState)
    (wop : YBRedisWriteOpState) (r w : Nat) (perrs : Option (List Status))
    (status : Status)
    (hr : status.ok = true → rop.redis_response = some r)
    (hw : status.ok = true → wop.redis_response = some w) :
    ReadCommandCb.Run rop status =
      .ok (if status.ok then [.RespondSuccess r] else [.RespondFailure status])
  ∧ WriteCommandCb.Run wop perrs status =
      .ok ⟨if status.ok then [] else perrs.getD [],
           if status.ok then [.RespondSuccess w] else [.RespondFailure status]⟩
  ∧ (if status.ok then ([ResponseEvent.RespondSuccess r])
       else [.RespondFailure status]).length = 1 := by
  cases hsok : status.ok with
  | true =>
    have hrr := hr hsok
    have hww := hw hsok
    refine ⟨?_, ?_, rfl⟩
    · simp [ReadCommandCb.Run, hsok, YBRedisReadOp.response, hrr]
    · simp [WriteCommandCb.Run, hsok, YBRedisWriteOp.response, hww]
  | false =>
    refine ⟨?_, ?_, rfl⟩
    · simp [ReadCommandCb.Run, hsok]
    · cases perrs <;> simp [WriteCommandCb.Run, hsok]

/-- Witness for C1 at concrete inputs: a populated read op completing OK,
and a write op completing with a failure status. -/
theorem cb_run_exactly_one_response_witness :
    ReadCommandCb.Run ⟨some 3⟩ Status.OK =
      .ok (if Status.OK.ok then [.RespondSuccess 3]
             else [.RespondFailure Status.OK])
  ∧ WriteCommandCb.Run ⟨some 4⟩ none Status.OK =
      .ok ⟨if Status.OK.ok then [] else (none : Option (List Status)).getD [],
           if Status.OK.ok then [.RespondSuccess 4]
             else [.RespondFailure Status.OK]⟩
  ∧ (if Status.OK.ok then ([ResponseEvent.RespondSuccess 3])
       else [.RespondFailure Status.OK]).length = 1 :=
  cb_run_exactly_one_response ⟨some 3⟩ ⟨some 4⟩ 3 4 none Status.OK
    (fun _ => rfl) (fun _ => rfl)

/-- C2: the dispatcher checks conditions in this order: a
client-initialization failure produces a failure response before any
command-shape check (first conjunct: for every command info and argument
vector); an unsupported command produces "Unsupported call." before any
arity check (second conjunct: for every argument vector); only when the
command is known and initialization succeeded is the arity contract
checked and, if satisfied, the bound handler invoked (third and fourth
conjuncts). -/
theorem validateAndHandle_check_order (b o : Status) (st : ClientState)
    (ci : Option RedisCommandInfo) (args : List Str) :
    ((initStatus b o st).ok = false →
      (ValidateAndHandle b o st ci args).outcome =
        .RespondWithFailure
          ("Could not open .redis table. " ++ (initStatus b o st).message))
  ∧ ((initStatus b o st).ok = true → ci = none →
      (ValidateAndHandle b o st ci args).outcome =
        .RespondWithFailure "Unsupported call.")
  ∧ ((initStatus b o st).ok = true → ∀ info, ci = some info →
      aritySatisfied info args.length →
      (ValidateAndHandle b o st ci args).outcome =
        .InvokeHandler info.function_ptr)
  ∧ (∀ hh, (ValidateAndHandle b o st ci args).outcome = .InvokeHandler hh →
      (initStatus b o st).ok = true ∧
      ∃ info, ci = some info ∧ info.function_ptr = hh ∧
        aritySatisfied info args.length) := by
  obtain ⟨flag⟩ := st
  cases flag with
  | true =>
    rw [initStatus_flag_true, validateAndHandle_flag_true]
    refine ⟨?_, ?_, ?_, ?_⟩
    · intro hfail
      cases hfail
    · intro _ hci
      rw [hci]
      rfl
    · intro _ info hci hsat
      rw [hci]
      exact handleCommand_some_satisfied info args hsat
    · intro hh hinv
      exact ⟨rfl, handleCommand_invoke_inv ci args hh hinv⟩
  | false =>
    rw [initStatus_flag_false]
    cases hs : (SetUpYBClient b o ⟨false⟩).status.ok with
    | false =>
      rw [validateAndHandle_flag_false_fail b o ci args hs]
      refine ⟨fun _ => rfl, ?_, ?_, ?_⟩
      · intro hok
        simp at hok
      · intro hok
        simp at hok
      · intro hh hinv
        cases hinv
    | true =>
      rw [validateAndHandle_flag_false_ok b o ci args hs]
      refine ⟨?_, ?_, ?_, ?_⟩
      · intro hfail
        simp at hfail
      · intro _ hci
        rw [hci]
        rfl
      · intro _ info hci hsat
        rw [hci]
        exact handleCommand_some_satisfied info args hsat
      · intro hh hinv
        exact ⟨rfl, handleCommand_invoke_inv ci args hh hinv⟩

/-- Witness for C2: unsupported command on an initialized service, and an
initialization failure taking priority over the command-shape checks. -/
theorem validateAndHandle_check_order_witness :
    (ValidateAndHandle Status.OK Status.OK ⟨true⟩ none ["foo".toList]).outcome =
      .RespondWithFailure "Unsupported call."
  ∧ (ValidateAndHandle ⟨false, "conn refused"⟩ Status.OK ⟨false⟩ none []).outcome =
      .RespondWithFailure
        ("Could not open .redis table. " ++
          (initStatus ⟨false, "conn refused"⟩ Status.OK ⟨false⟩).message) :=
  ⟨(validateAndHandle_check_order Status.OK Status.OK ⟨true⟩ none
      ["foo".toList]).2.1 rfl rfl,
   (validateAndHandle_check_order ⟨false, "conn refused"⟩ Status.OK ⟨false⟩ none
      []).1 rfl⟩

/-- C3: for every recognized command, on an initialized service: with a
negative ("at least N") arity contract, an argument count below N yields
the failure "Too few arguments."; with a positive ("exactly N") contract,
an argument count different from N yields "Wrong number of arguments.";
otherwise the bound handler is invoked. A failure outcome is a
`RespondWithFailure`, not an `InvokeHandler`, so no pipeline (and hence no
backend call) runs; the last conjunct states that a handler invocation
happens only when the arity contract is satisfied. -/
theorem validateAndHandle_arity_contract (b o : Status) (st : ClientState)
    (info : RedisCommandInfo) (args : List Str)
    (hinit : (initStatus b o st).ok = true) :
    (info.arity < 0 → (args.length : Int) < -1 * info.arity →
      (ValidateAndHandle b o st (some info) args).outcome =
        .RespondWithFailure "Too few arguments.")
  ∧ (info.arity > 0 → (args.length : Int) ≠ info.arity →
      (ValidateAndHandle b o st (some info) args).outcome =
        .RespondWithFailure "Wrong number of arguments.")
  ∧ (aritySatisfied info args.length →
      (ValidateAndHandle b o st (some info) args).outcome =
        .InvokeHandler info.function_ptr)
  ∧ (∀ hh, (ValidateAndHandle b o st (some info) args).outcome =
        .InvokeHandler hh → aritySatisfied info args.length) := by
  have hout : (ValidateAndHandle b o st (some info) args).outcome =
      handleCommand (some info) args := by
    obtain ⟨flag⟩ := st
    cases flag with
    | true => rfl
    | false =>
      rw [initStatus_flag_false] at hinit
      rw [validateAndHandle_flag_false_ok b o (some info) args hinit]
  rw [hout]
  refine ⟨?_, ?_, ?_, ?_⟩
  · intro h1 h2
    simp only [handleCommand]
    rw [if_pos ⟨h1, h2⟩]
  · intro h1 h2
    simp only [handleCommand]
    rw [if_neg (fun hc => absurd hc.1 (lt_asymm h1)), if_pos ⟨h1, h2⟩]
  · intro hsat
    exact handleCommand_some_satisfied info args hsat
  · intro hh hinv
    obtain ⟨info2, hi, _, hsat⟩ := handleCommand_invoke_inv (some info) args hh hinv
    cases hi
    exact hsat

/-- Witness for C3: a command with exact arity 2 called with one argument
gets "Wrong number of arguments.", and with two arguments its handler is
invoked. -/
theorem validateAndHandle_arity_contract_witness :
    (ValidateAndHandle Status.OK Status.OK ⟨true⟩
        (some ⟨"get".toList, 2, .GetCommand⟩) ["get".toList]).outcome =
      .RespondWithFailure "Wrong number of arguments."
  ∧ (ValidateAndHandle Status.OK Status.OK ⟨true⟩
        (some ⟨"get".toList, 2, .GetCommand⟩)
        ["get".toList, "k".toList]).outcome =
      .InvokeHandler .GetCommand :=
  ⟨(validateAndHandle_arity_contract Status.OK Status.OK ⟨true⟩
      ⟨"get".toList, 2, .GetCommand⟩ ["get".toList] rfl).2.1
      (by decide) (by decide),
   (validateAndHandle_arity_contract Status.OK Status.OK ⟨true⟩
      ⟨"get".toList, 2, .GetCommand⟩ ["get".toList, "k".toList] rfl).2.2.1
      (by decide)⟩

/-- C4: the claim fails on the code at `getrange` and the code is the
slip: `GetCommand`, `HGetCommand`, `StrLenCommand` and `ExistsCommand`
each attach their own registered per-command metric to the completion
object, but `GetRangeCommand` (redis_service.cc line 384) passes
`"exists"` as the command name, so the completion object for a getrange
command retains the metric registered under `"exists"` rather than the one
registered (and never otherwise used) under `"getrange"`. -/
theorem getrange_metric_key_copy_paste :
    attachedReadMetricKey .GetCommand = some (registryName .GetCommand)
  ∧ attachedReadMetricKey .HGetCommand = some (registryName .HGetCommand)
  ∧ attachedReadMetricKey .StrLenCommand = some (registryName .StrLenCommand)
  ∧ attachedReadMetricKey .ExistsCommand = some (registryName .ExistsCommand)
  ∧ attachedReadMetricKey .GetRangeCommand = some ("exists".toList)
  ∧ attachedReadMetricKey .GetRangeCommand ≠ some (registryName .GetRangeCommand)
  := by decide

/-- C5: a failure while building the client or opening the table is
returned to the caller with the flag still unset (so a later request runs
the build/open sequence again, conjuncts one and two); once the flag is
set, `SetUpYBClient` returns OK having performed no build/open (third
conjunct), and the dispatch-path steady-state check never takes the lock
nor builds (fourth and fifth conjuncts). -/
theorem setUpYBClient_retry_and_fast_path (b o : Status)
    (ci : Option RedisCommandInfo) (args : List Str) :
    (b.ok = false → SetUpYBClient b o ⟨false⟩ = ⟨b, ⟨false⟩, 1, 1⟩)
  ∧ (b.ok = true → o.ok = false → SetUpYBClient b o ⟨false⟩ = ⟨o, ⟨false⟩, 1, 1⟩)
  ∧ SetUpYBClient b o ⟨true⟩ = ⟨Status.OK, ⟨true⟩, 0, 1⟩
  ∧ (ValidateAndHandle b o ⟨true⟩ ci args).lockCount = 0
  ∧ (ValidateAndHandle b o ⟨true⟩ ci args).buildOpenCount = 0 := by
  refine ⟨?_, ?_, rfl, rfl, rfl⟩
  · intro hb
    simp [SetUpYBClient, hb]
  · intro hb ho
    simp [SetUpYBClient, hb, ho]

/-- Witness for C5: a failed client build and a failed table open each
return the error with the flag still unset and one build/open attempt. -/
theorem setUpYBClient_retry_and_fast_path_witness :
    SetUpYBClient ⟨false, "master unreachable"⟩ Status.OK ⟨false⟩ =
      ⟨⟨false, "master unreachable"⟩, ⟨false⟩, 1, 1⟩
  ∧ SetUpYBClient Status.OK ⟨false, "table missing"⟩ ⟨false⟩ =
      ⟨⟨false, "table missing"⟩, ⟨false⟩, 1, 1⟩ :=
  ⟨(setUpYBClient_retry_and_fast_path ⟨false, "master unreachable"⟩ Status.OK
      none []).1 rfl,
   (setUpYBClient_retry_and_fast_path Status.OK ⟨false, "table missing"⟩
      none []).2.1 rfl rfl⟩

/-- C6: when the per-command parser returns a non-OK status, both
pipelines respond with a single failure carrying the parser's message, and
the event trace contains no `ReadAsync`, no `Apply` and no `FlushAsync`:
no backend call is made. -/
theorem parse_failure_responds_without_backend_call (command_name : Str)
    (s : Status) (h : s.ok = false) :
    ReadCommand command_name s = [.RespondFailureMsg s.message]
  ∧ WriteCommand command_name s = [.RespondFailureMsg s.message]
  ∧ (∀ cb, PipelineEvent.ReadAsync cb ∉ ReadCommand command_name s)
  ∧ PipelineEvent.Apply ∉ WriteCommand command_name s
  ∧ (∀ cb, PipelineEvent.FlushAsync cb ∉ WriteCommand command_name s) := by
  refine ⟨?_, ?_, ?_, ?_, ?_⟩ <;> simp [ReadCommand, WriteCommand, h]

/-- Witness for C6 at a concrete failed parse. -/
theorem parse_failure_responds_without_backend_call_witness :
    ReadCommand "get".toList ⟨false, "A GET request must have 2 arguments"⟩ =
      [.RespondFailureMsg "A GET request must have 2 arguments"]
  ∧ WriteCommand "get".toList ⟨false, "A GET request must have 2 arguments"⟩ =
      [.RespondFailureMsg "A GET request must have 2 arguments"] :=
  ⟨(parse_failure_responds_without_backend_call "get".toList
      ⟨false, "A GET request must have 2 arguments"⟩ rfl).1,
   (parse_failure_responds_without_backend_call "get".toList
      ⟨false, "A GET request must have 2 arguments"⟩ rfl).2.1⟩

/-- C7: on a non-success backend status, `WriteCommandCb::Run` first logs
every buffered pending per-operation error status as a warning and then
sends exactly one failure response carrying only the top-level status —
the result equality holds for every pending-error list, so the
querying/logging never changes the response. -/
theorem writeCb_run_failure_logs_pending_errors (wop : YBRedisWriteOpState)
    (errs : List Status) (status : Status) (h : status.ok = false) :
    WriteCommandCb.Run wop (some errs) status =
      .ok ⟨errs, [.RespondFailure status]⟩ := by
  simp [WriteCommandCb.Run, h]

/-- Witness for C7: a failed flush with one buffered pending error. -/
theorem writeCb_run_failure_logs_pending_errors_witness :
    WriteCommandCb.Run ⟨none⟩ (some [⟨false, "op error"⟩]) ⟨false, "timed out"⟩ =
      .ok ⟨[⟨false, "op error"⟩], [.RespondFailure ⟨false, "timed out"⟩]⟩ :=
  writeCb_run_failure_logs_pending_errors ⟨none⟩ [⟨false, "op error"⟩]
    ⟨false, "timed out"⟩ rfl

/-- C8: `FetchHandler` lower-cases the command name before the registry
lookup, so two inbound argument vectors whose first elements differ only
in letter casing resolve to the same `CommandInfo`, for every arity
assignment of the table. -/
theorem fetchHandler_case_insensitive (arity : RedisHandler → Int)
    (a b : Str) (rest1 rest2 : List Str) (h : strCaseEq a b = true) :
    FetchHandler arity (a :: rest1) = FetchHandler arity (b :: rest2) := by
  have hl : ToLowerCase a = ToLowerCase b := strCaseEq_map_toLower a b h
  simp only [FetchHandler, ToLowerCase] at hl ⊢
  rw [hl]

/-- Witness for C8: "GeT" and "get" resolve identically. -/
theorem fetchHandler_case_insensitive_witness :
    FetchHandler (fun _ => 2) ["GeT".toList] =
      FetchHandler (fun _ => 2) ["get".toList] :=
  fetchHandler_case_insensitive (fun _ => 2) "GeT".toList "get".toList [] []
    (by decide)

/-- C9: for both ops, `mutable_response` never returns null and is
idempotent: on an empty slot it allocates the fresh object and returns it;
on any state the returned pointer is non-null; and a second call (with any
other fresh identity available) returns the same pointer and leaves the
state unchanged — no reallocation. -/
theorem mutable_response_idempotent_nonnull (rst : YBRedisReadOpState)
    (wst : YBRedisWriteOpState) (f1 f2 : Nat) :
    YBRedisReadOp.mutable_response ⟨none⟩ f1 = (some f1, ⟨some f1⟩)
  ∧ (YBRedisReadOp.mutable_response rst f1).1 ≠ none
  ∧ YBRedisReadOp.mutable_response (YBRedisReadOp.mutable_response rst f1).2 f2
      = ((YBRedisReadOp.mutable_response rst f1).1,
         (YBRedisReadOp.mutable_response rst f1).2)
  ∧ YBRedisWriteOp.mutable_response ⟨none⟩ f1 = (some f1, ⟨some f1⟩)
  ∧ (YBRedisWriteOp.mutable_response wst f1).1 ≠ none
  ∧ YBRedisWriteOp.mutable_response (YBRedisWriteOp.mutable_response wst f1).2 f2
      = ((YBRedisWriteOp.mutable_response wst f1).1,
         (YBRedisWriteOp.mutable_response wst f1).2) := by
  obtain ⟨r⟩ := rst
  obtain ⟨w⟩ := wst
  cases r <;> cases w <;>
    simp [YBRedisReadOp.mutable_response, YBRedisWriteOp.mutable_response]

/-- C10: `YBRedisReadOp::response` asserts that the response slot is
non-null — on an unpopulated slot the assertion fires; on a populated slot
it returns the held response, and in the read pipeline's success branch
(OK status with the slot populated by the completed backend read) the
assertion is unreachable and `Run` responds success with that response. -/
theorem readOp_response_assert_precondition (st : YBRedisReadOpState) (r : Nat)
    (h : st.redis_response = some r) :
    YBRedisReadOp.response ⟨none⟩ = .assertFailed
  ∧ YBRedisReadOp.response st = .ok r
  ∧ (∀ status : Status, status.ok = true →
      ReadCommandCb.Run st status = .ok [.RespondSuccess r]) := by
  refine ⟨rfl, ?_, ?_⟩
  · simp [YBRedisReadOp.response, h]
  · intro status hs
    simp [ReadCommandCb.Run, hs, YBRedisReadOp.response, h]

/-- Witness for C10 on a populated slot at an OK status. -/
theorem readOp_response_assert_precondition_witness :
    YBRedisReadOp.response ⟨some 5⟩ = .ok 5
  ∧ ReadCommandCb.Run ⟨some 5⟩ Status.OK = .ok [.RespondSuccess 5] :=
  ⟨(readOp_response_assert_precondition ⟨some 5⟩ 5 rfl).2.1,
   (readOp_response_assert_precondition ⟨some 5⟩ 5 rfl).2.2 Status.OK rfl⟩

end YbRedis
